import Mathlib

/-!
Verification development for the ventilator control module
(vent/controller/control_module.py).

The Python module is shallowly embedded below.  Machine floats are modeled
as rationals; where not-a-number / non-finite values matter (the pressure
column fed to the waveform analyzer) a value is an Option, with none
standing for a non-finite float.  Stateful methods become pure functions
from the fields they read to the fields they write; code that can raise an
exception returns an Except or Option value, with the error constructor
standing for the raised exception.
-/

namespace Vent

/-! ## Definitions -/

/-- Number of forced-release actuation cycles issued by the HAPA branch of
ControlModuleBase.__test_for_alarms: the source loop runs for i in range(5). -/
def forced_release_count : Nat := 5

/-- Result of the High-Airway-Pressure section of __test_for_alarms: the HAPA
alarm slot (modeled by its start_time, none when no alarm is active), the
internal PIP setpoint, the two actuator command signals, and the list of
(inlet, outlet) command pairs issued by the forced-release loop. -/
structure HapaOutcome where
  hapa : Option ℚ
  set_pip : ℚ
  control_signal_in : ℚ
  control_signal_out : ℚ
  forced_writes : List (ℚ × ℚ)
deriving DecidableEq, Repr

/-- The HAPA section of ControlModuleBase.__test_for_alarms (control_module.py
lines 421-445).  If _DATA_PRESSURE exceeds limit_hapa, a HAPA alarm is opened
(keeping an existing start_time); if the excursion has lasted longer than
cough_duration, __SET_PIP is set to 30 and the forced-release loop writes
control_signal_in = 0, control_signal_out = 1 for forced_release_count
cycles; otherwise the controller-computed signals are left untouched.  When
pressure is at or below the limit the HAPA slot is cleared to none. -/
def test_for_alarms_hapa (data_pressure limit_hapa cough_duration now : ℚ)
    (hapa : Option ℚ) (set_pip sig_in sig_out : ℚ) : HapaOutcome :=
  if limit_hapa < data_pressure then
    let start_time := hapa.getD now
    if cough_duration < now - start_time then
      { hapa := some start_time
        set_pip := 30
        control_signal_in := 0
        control_signal_out := 1
        forced_writes := List.replicate forced_release_count (0, 1) }
    else
      { hapa := some start_time
        set_pip := set_pip
        control_signal_in := sig_in
        control_signal_out := sig_out
        forced_writes := [] }
  else
    { hapa := none
      set_pip := set_pip
      control_signal_in := sig_in
      control_signal_out := sig_out
      forced_writes := [] }

/-- Alarm types referenced by the controller (from vent.alarm.AlarmType). -/
inductive AlarmType
  | HIGH_PRESSURE
  | SENSORS_STUCK
  | BAD_SENSOR_READINGS
  | MISSED_HEARTBEAT
deriving DecidableEq, Repr

/-- The missed-heartbeat section of ControlModuleBase.__test_for_alarms
(control_module.py lines 483-494), translated literally: the source computes
last_contact = self._time_last_contact - time.time() and appends a
MISSED_HEARTBEAT technical alarm (deduplicated by type) when last_contact
exceeds the critical interval. -/
def test_for_alarms_heartbeat (techa : List AlarmType)
    (time_last_contact now critical_time : ℚ) : List AlarmType :=
  let last_contact := time_last_contact - now
  if critical_time < last_contact then
    if techa.any (fun a => a = AlarmType.MISSED_HEARTBEAT) then techa
    else techa ++ [AlarmType.MISSED_HEARTBEAT]
  else techa

/-- Breath segmentation predicate from ControlModuleDevice._start_mainloop
(control_module.py line 777): a new breath cycle is started when the stored
cycle_phase is None or is strictly greater than the freshly read phase. -/
def new_breath (cycle_phase : Option ℚ) (current : ℚ) : Bool :=
  match cycle_phase with
  | none => true
  | some p => decide (current < p)

/-- Feeding a phase sequence through the segmenter loop: for each sample,
record whether a new-breath event fires, then store the sample as the
previous phase (as the mainloop does at the end of each iteration). -/
def breath_events (cycle_phase : Option ℚ) : List ℚ → List Bool
  | [] => []
  | p :: ps => new_breath cycle_phase p :: breath_events (some p) ps

/-- A possibly non-finite float value: none models NaN or an infinity. -/
abbrev EF := Option ℚ

/-- One row of a cycle waveform: (phase, pressure, volume), as built by
__start_new_breathcycle / _start_mainloop.  The pressure column may contain
non-finite samples; phase and volume are taken finite, which is all the
claims under analysis require. -/
structure Row where
  phase : ℚ
  pressure : EF
  volume : ℚ
deriving DecidableEq, Repr

/-- np.mean of a pressure column: non-finite (none) as soon as the column is
empty or contains a non-finite sample, otherwise the arithmetic mean. -/
def np_mean (xs : List EF) : EF :=
  if xs.isEmpty then none
  else if xs.all (fun x => x.isSome) then
    some ((xs.filterMap id).sum / (xs.length : ℚ))
  else none

/-- Insertion of one element into an ascending list, used to sort a pressure
subset before taking a percentile. -/
def insert_asc (x : ℚ) : List ℚ → List ℚ
  | [] => [x]
  | y :: ys => if x ≤ y then x :: y :: ys else y :: insert_asc x ys

/-- Ascending insertion sort over rationals. -/
def sort_asc (xs : List ℚ) : List ℚ := xs.foldr insert_asc []

/-- np.percentile with the default linear interpolation between order
statistics: for a nonempty list, the value at fractional rank
q / 100 * (n - 1) of the sorted data.  none models the IndexError numpy
raises on an empty array. -/
def np_percentile (xs : List ℚ) (q : ℚ) : Option ℚ :=
  match xs with
  | [] => none
  | _ :: _ =>
    let s := sort_asc xs
    let h : ℚ := q / 100 * ((xs.length : ℚ) - 1)
    let lo : ℕ := (Int.floor h).toNat
    let hi : ℕ := (Int.ceil h).toNat
    let a := s.getD lo 0
    let b := s.getD hi 0
    some (a + (h - (lo : ℚ)) * (b - a))

/-- np.min(np.where(cond)) over a list: index of the first element satisfying
the condition; none models the ValueError numpy raises when no index
matches. -/
def first_idx (p : ℚ → Bool) : List ℚ → Option ℕ
  | [] => none
  | x :: xs => if p x then some 0 else (first_idx p xs).map (fun i => i + 1)

/-- np.max(np.where(cond)) over a list: index of the last element satisfying
the condition; none models the ValueError numpy raises when no index
matches. -/
def last_idx (p : ℚ → Bool) : List ℚ → Option ℕ
  | [] => none
  | x :: xs =>
    match last_idx p xs with
    | some i => some (i + 1)
    | none => if p x then some 0 else none

/-- The derived per-breath metrics kept in the _DATA_ fields.  Each is an
Option: none models both the Python None the fields are initialized with and
the np.nan / non-finite values the analyzer can assign. -/
structure Derived where
  peep : EF
  pip_plateau : EF
  pip : EF
  pip_time : EF
  peep_time : EF
  i_phase : EF
  vte : EF
  bpm : EF
deriving DecidableEq, Repr

/-- Initial value of the _DATA_ fields set in ControlModuleBase.__init__:
every derived metric starts out as None. -/
def initial_derived : Derived :=
  { peep := none, pip_plateau := none, pip := none, pip_time := none,
    peep_time := none, i_phase := none, vte := none, bpm := none }

/-- Body of ControlModuleBase.__analyze_last_waveform applied to one archived
waveform (control_module.py lines 256-295).  VTE is computed from the volume
column before the finiteness test on the mean pressure; if the mean is not
finite the six pressure-derived metrics are set to NaN (none); otherwise
they are computed with the percentile heuristics.  BPM is 60 divided by the
last phase; a zero last phase yields a non-finite BPM (none).  The error
value models an exception escaping the analyzer (numpy percentile / min /
max on an empty selection); an empty waveform cannot occur in the source,
where every waveform starts with one seed row. -/
def analyze_waveform (rows : List Row) : Except Unit Derived :=
  match rows with
  | [] => .error ()
  | r0 :: rest =>
    let all := r0 :: rest
    let phase := all.map Row.phase
    let pressure := all.map Row.pressure
    let volume := all.map Row.volume
    let mean_pressure := np_mean pressure
    let vte : ℚ := volume.foldl max r0.volume - volume.foldl min r0.volume
    let last_phase : ℚ := phase.getLastD 0
    let bpm : EF := if last_phase = 0 then none else some (60 / last_phase)
    match mean_pressure with
    | none =>
      .ok { peep := none, pip_plateau := none, pip := none, pip_time := none,
            peep_time := none, i_phase := none, vte := some vte, bpm := bpm }
    | some m =>
      let vals := pressure.filterMap id
      match np_percentile (vals.filter (fun x => decide (x < m))) 20 with
      | none => .error ()
      | some data_peep =>
        match np_percentile (vals.filter (fun x => decide (m < x))) 80 with
        | none => .error ()
        | some data_pip_plateau =>
          match np_percentile (vals.filter (fun x => decide (m < x))) 95 with
          | none => .error ()
          | some data_pip =>
            match first_idx (fun x => decide (data_pip_plateau * (9/10) < x))
                vals with
            | none => .error ()
            | some pip_i =>
              match first_idx (fun x => decide (x < data_peep)) vals with
              | none => .error ()
              | some peep_i =>
                match last_idx
                    (fun x => decide (data_pip_plateau * (9/10) < x)) vals with
                | none => .error ()
                | some ip_i =>
                  .ok { peep := some data_peep
                        pip_plateau := some data_pip_plateau
                        pip := some data_pip
                        pip_time := some (phase.getD pip_i 0)
                        peep_time := some (phase.getD peep_i 0)
                        i_phase := some (phase.getD ip_i 0)
                        vte := some vte
                        bpm := bpm }

/-- Guard of ControlModuleBase.__analyze_last_waveform (line 255): the
analysis body only runs when the waveform archive holds more than one entry,
and then operates on the most recently archived waveform; otherwise every
_DATA_ metric is left unchanged. -/
def analyze_last_waveform (archive : List (List Row)) (current : Derived) :
    Except Unit Derived :=
  if 1 < archive.length then
    match archive.getLast? with
    | some w => analyze_waveform w
    | none => .error ()
  else .ok current

/-- Concrete archived waveform used to settle Claim C5: phases 0,1,2,3,
pressures 0,1,10,10, volumes 0,0,5,5. -/
def waveform_c5 : List Row :=
  [⟨0, some 0, 0⟩, ⟨1, some 1, 0⟩, ⟨2, some 10, 5⟩, ⟨3, some 10, 5⟩]

/-- The metrics the analyzer derives from waveform_c5. -/
def derived_c5 : Derived :=
  { peep := some (1/5), pip_plateau := some 10, pip := some 10,
    pip_time := some 2, peep_time := some 0, i_phase := some 3,
    vte := some 5, bpm := some 20 }

/-- Python int() truncates toward zero. -/
def py_int (q : ℚ) : ℤ := if 0 ≤ q then Int.floor q else Int.ceil q

/-- The inlet processing of ControlModuleDevice._set_HAL:
max(min(100, int(valve_open_in)), 0). -/
def clamp_valve_in (valve_open_in : ℚ) : ℤ :=
  max (min 100 (py_int valve_open_in)) 0

/-- Valve-related state of ControlModuleDevice: the two hardware setpoints
of the HAL collaborator and the cached settings used to suppress redundant
hardware writes. -/
structure ValveState where
  setpoint_in : ℚ
  setpoint_ex : ℚ
  current_setting_in : ℚ
  current_setting_ex : ℚ
deriving DecidableEq, Repr

/-- Result of a _set_HAL call: the updated valve state and whether each of
the two hardware setpoints was actually written. -/
structure SetHalResult where
  state : ValveState
  wrote_in : Bool
  wrote_ex : Bool
deriving DecidableEq, Repr

/-- ControlModuleDevice._set_HAL (control_module.py lines 690-700): the inlet
command is truncated to an integer and clamped to [0, 100], the outlet
command is forwarded as given; each write is skipped when the cached setting
already holds the new value.  The source compares with Python object
identity (is not); the values reaching the inlet comparison are small
interned integers, for which identity coincides with numeric equality, and
that is how the comparison is modeled. -/
def set_HAL (s : ValveState) (valve_open_in valve_open_out : ℚ) :
    SetHalResult :=
  let new_in : ℚ := (clamp_valve_in valve_open_in : ℤ)
  let step1 :=
    if s.current_setting_in ≠ new_in then
      ({ s with setpoint_in := new_in, current_setting_in := new_in }, true)
    else (s, false)
  let s1 := step1.1
  let step2 :=
    if s1.current_setting_ex ≠ valve_open_out then
      ({ s1 with
          current_setting_ex := valve_open_out
          setpoint_ex := valve_open_out }, true)
    else (s1, false)
  { state := step2.1, wrote_in := step1.2, wrote_ex := step2.2 }

/-- ControlModuleDevice.set_valves_standby (control_module.py lines 738-746):
request inlet = 0, outlet = 1 through _set_HAL. -/
def set_valves_standby (s : ValveState) : SetHalResult := set_HAL s 0 1

/-- Setting names (vent.common.values.ValueName); the first six are the ones
set_control / get_control accept. -/
inductive ValueName
  | PIP
  | PIP_TIME
  | PEEP
  | PEEP_TIME
  | BREATHS_PER_MINUTE
  | INSPIRATION_TIME_SEC
  | FIO2
  | PRESSURE
  | VTE
  | FLOWOUT
deriving DecidableEq, Repr

/-- A ControlSetting message (vent.common.message.ControlSetting). -/
structure ControlSetting where
  name : ValueName
  value : Option ℚ
  min_value : Option ℚ
  max_value : Option ℚ
deriving DecidableEq, Repr

/-- The six setting names with a corresponding controller variable. -/
def valid_set_name : ValueName → Bool
  | .PIP => true
  | .PIP_TIME => true
  | .PEEP => true
  | .PEEP_TIME => true
  | .BREATHS_PER_MINUTE => true
  | .INSPIRATION_TIME_SEC => true
  | _ => false

/-- The externally visible shared copy of the six control settings (the
COPY_SET_ fields of ControlModuleBase). -/
structure SharedSettings where
  pip : ℚ
  pip_time : ℚ
  peep : ℚ
  peep_time : ℚ
  bpm : ℚ
  i_phase : ℚ
deriving DecidableEq, Repr

/-- The loop-thread working copy (the __SET_ fields) together with the
derived timing quantities recomputed on each resync. -/
structure WorkingSettings where
  pip : ℚ
  pip_gain : ℚ
  peep : ℚ
  peep_time : ℚ
  bpm : ℚ
  i_phase : ℚ
  cycle_duration : ℚ
  e_phase : ℚ
  t_peep : ℚ
deriving DecidableEq, Repr

/-- The part of the controller state touched by set_control, get_control and
_controls_from_COPY: shared copy, working copy, high-pressure alarm limit. -/
structure ExchangeState where
  shared : SharedSettings
  working : WorkingSettings
  limit_hapa : ℚ
deriving DecidableEq, Repr

/-- ControlModuleBase.set_control (control_module.py lines 343-375).  A
non-None value for a valid name updates the shared copy; an unknown name
with a non-None value returns early with no state change.  Independently, a
PIP setting carrying a max_value installs it as the new HAPA limit. -/
def set_control (st : ExchangeState) (cs : ControlSetting) : ExchangeState :=
  let step1 : Option ExchangeState :=
    match cs.value with
    | none => some st
    | some v =>
      match cs.name with
      | .PIP => some { st with shared := { st.shared with pip := v } }
      | .PIP_TIME => some { st with shared := { st.shared with pip_time := v } }
      | .PEEP => some { st with shared := { st.shared with peep := v } }
      | .BREATHS_PER_MINUTE =>
        some { st with shared := { st.shared with bpm := v } }
      | .INSPIRATION_TIME_SEC =>
        some { st with shared := { st.shared with i_phase := v } }
      | .PEEP_TIME => some { st with shared := { st.shared with peep_time := v } }
      | _ => none
  match step1 with
  | none => st
  | some st1 =>
    match cs.name, cs.max_value with
    | .PIP, some m => { st1 with limit_hapa := m }
    | _, _ => st1

/-- ControlModuleBase.get_control (control_module.py lines 377-400): returns
the shared-copy value for one of the six valid names, None otherwise. -/
def get_control (shared : SharedSettings) (n : ValueName) : Option ℚ :=
  match n with
  | .PIP => some shared.pip
  | .PIP_TIME => some shared.pip_time
  | .PEEP => some shared.peep
  | .BREATHS_PER_MINUTE => some shared.bpm
  | .INSPIRATION_TIME_SEC => some shared.i_phase
  | .PEEP_TIME => some shared.peep_time
  | _ => none

/-- ControlModuleBase._controls_from_COPY (control_module.py lines 232-251):
the resync copying shared to working and recomputing the derived timing
quantities; division by a zero bpm raises and is caught, falling back to a
cycle duration of 20. -/
def controls_from_COPY (st : ExchangeState) : ExchangeState :=
  let cd : ℚ := if st.shared.bpm = 0 then 20 else 60 / st.shared.bpm
  { st with working :=
    { pip := st.shared.pip
      pip_gain := st.shared.pip_time
      peep := st.shared.peep
      peep_time := st.shared.peep_time
      bpm := st.shared.bpm
      i_phase := st.shared.i_phase
      cycle_duration := cd
      e_phase := cd - st.shared.i_phase
      t_peep := cd - st.shared.i_phase - st.shared.peep_time } }

/-- Folding a sequence of set_control calls over the exchange state. -/
def apply_settings (st : ExchangeState) (ops : List ControlSetting) :
    ExchangeState :=
  ops.foldl set_control st

/-- The value of the last set_control call for a given name carrying a
non-None value, scanning a call sequence whose later calls are to the
right. -/
def last_set_value (n : ValueName) : List ControlSetting → Option ℚ
  | [] => none
  | c :: rest =>
    match last_set_value n rest with
    | some v => some v
    | none => if c.name = n then c.value else none

/-- deque(maxlen = N).append of __cycle_waveform_archive: the new entry goes
to the back and the oldest entries are evicted from the front so that at
most N remain. -/
def archive_append (ringbuffer_size : ℕ) (archive : List α) (w : α) :
    List α :=
  let a := archive ++ [w]
  if ringbuffer_size < a.length then a.drop (a.length - ringbuffer_size)
  else a

/-- ControlModuleBase.get_past_waveforms (control_module.py lines 546-558):
returns the archive as a list and replaces the ring buffer by a fresh one
seeded with only the most recent waveform (archive[-1]).  On an empty
archive, archive[-1] raises an IndexError, modeled by none. -/
def get_past_waveforms (archive : List α) : Option (List α × List α) :=
  match archive.getLast? with
  | none => none
  | some w => some (archive, [w])

/-- States of the waveform ring buffer reachable from the empty initial
buffer through breath archiving (deque append with maxlen) and draining
get_past_waveforms calls. -/
inductive ArchiveReachable (ringbuffer_size : ℕ) : List α → Prop
  | init : ArchiveReachable ringbuffer_size []
  | append (archive : List α) (w : α) :
      ArchiveReachable ringbuffer_size archive →
      ArchiveReachable ringbuffer_size
        (archive_append ringbuffer_size archive w)
  | drain (archive ret buf : List α) :
      ArchiveReachable ringbuffer_size archive →
      get_past_waveforms archive = some (ret, buf) →
      ArchiveReachable ringbuffer_size buf

/-! ## Theorems -/

/-- Evaluation helper: the ceiling of a rational as the negated floor of its
negation, so that concrete ceilings reduce with the floor evaluator. -/
theorem int_ceil_as_neg_floor (a : ℚ) : ⌈a⌉ = -⌊-a⌋ := by
  rw [Int.floor_neg, neg_neg]

/-- Claim C1: in a loop iteration with pressure above the configured limit
and an active HAPA alarm, an excursion lasting at most the cough tolerance
leaves the controller-computed actuator command untouched (no forced
release), while an excursion lasting longer forces exactly 5 forced-release
cycles of inlet = 0, outlet = 1; and whenever pressure is at or below the
limit the HAPA alarm is set to none. -/
theorem C1_hapa_forced_release (p limit cough now start set_pip sIn sOut : ℚ) :
    (limit < p → now - start ≤ cough →
      test_for_alarms_hapa p limit cough now (some start) set_pip sIn sOut =
        { hapa := some start, set_pip := set_pip, control_signal_in := sIn,
          control_signal_out := sOut, forced_writes := [] }) ∧
    (limit < p → cough < now - start →
      test_for_alarms_hapa p limit cough now (some start) set_pip sIn sOut =
        { hapa := some start, set_pip := 30, control_signal_in := 0,
          control_signal_out := 1, forced_writes := List.replicate 5 (0, 1) }) ∧
    (p ≤ limit → ∀ hapa : Option ℚ,
      (test_for_alarms_hapa p limit cough now hapa set_pip sIn sOut).hapa
        = none) := by
  refine ⟨?_, ?_, ?_⟩
  · intro h1 h2
    simp [test_for_alarms_hapa, if_pos h1, if_neg (not_lt.mpr h2)]
  · intro h1 h2
    simp [test_for_alarms_hapa, if_pos h1, if_pos h2, forced_release_count]
  · intro h1 hapa
    simp [test_for_alarms_hapa, if_neg (not_lt.mpr h1)]

/-- Claim C1 witness: at pressure 50 over limit 40 with cough tolerance 1/10
and an alarm open since time 0, at time 1 the forced-release branch fires
with exactly 5 cycles of inlet = 0, outlet = 1. -/
theorem C1_hapa_forced_release_witness :
    test_for_alarms_hapa 50 40 (1/10) 1 (some 0) 20 3 4 =
      { hapa := some 0, set_pip := 30, control_signal_in := 0,
        control_signal_out := 1, forced_writes := List.replicate 5 (0, 1) } :=
  (C1_hapa_forced_release 50 40 (1/10) 1 0 20 3 4).2.1 (by norm_num)
    (by norm_num)

/-- Claim C2 (code bug): with last external contact at time 0, current time
10 and critical interval 1/5, the elapsed time 10 - 0 exceeds the critical
interval, yet the heartbeat check adds no MISSED_HEARTBEAT alarm.  The
source computes last_contact = self._time_last_contact - time.time(), which
is never positive, so the comparison against the (positive) critical
interval can never fire; the intended quantity is
time.time() - self._time_last_contact. -/
theorem C2_heartbeat_never_fires :
    test_for_alarms_heartbeat [] 0 10 (1/5) = [] ∧ ((10:ℚ) - 0 > 1/5) := by
  constructor
  · norm_num [test_for_alarms_heartbeat]
  · norm_num

/-- Claim C3 counterexample: starting with no previous phase reading, the
sequence [0.1, 0.3, 0.6, 0.05, 0.2] does not produce exactly one new-breath
event: the first sample also fires (no previous phase exists), so there are
two events, not one. -/
theorem C3_counterexample :
    (breath_events none [1/10, 3/10, 3/5, 1/20, 1/5]).count true ≠ 1 := by
  have h : breath_events none [1/10, 3/10, 3/5, 1/20, 1/5] =
      [true, false, false, true, false] := by
    norm_num [breath_events, new_breath]
  rw [h]
  decide

/-- Claim C3 (amended): starting with no previous phase reading, the phase
sequence [0.1, 0.3, 0.6, 0.05, 0.2] produces exactly two new-breath events,
at the first sample (no previous phase exists) and at the fourth sample
(phase decreased); in general a new-breath event occurs exactly when the
previous phase reading is strictly greater than the current one or when no
previous phase reading exists. -/
theorem C3_segmentation :
    breath_events none [1/10, 3/10, 3/5, 1/20, 1/5] =
      [true, false, false, true, false] ∧
    ∀ (prev : Option ℚ) (current : ℚ),
      new_breath prev current = true ↔
        prev = none ∨ ∃ p, prev = some p ∧ current < p := by
  constructor
  · norm_num [breath_events, new_breath]
  · intro prev current
    cases prev with
    | none => simp [new_breath]
    | some p => simp [new_breath]

/-- Claim C4 counterexample: a two-row waveform whose pressure samples are
all non-finite.  The analyzer does not set every derived metric to NaN: VTE
is computed from the (finite) volume column before the finiteness test and
BPM from the phase column after it, so both stay finite. -/
theorem C4_counterexample :
    analyze_waveform [⟨0, none, 0⟩, ⟨1, none, 2⟩] =
      .ok { peep := none, pip_plateau := none, pip := none, pip_time := none,
            peep_time := none, i_phase := none,
            vte := some 2, bpm := some 60 } ∧
    (some (2:ℚ) : EF) ≠ none := by
  constructor
  · norm_num [analyze_waveform, np_mean, List.getLastD]
  · simp

/-- Claim C4 (amended): for every nonempty archived waveform whose pressure
column has a non-finite mean, the analyzer raises no exception and sets the
six pressure-derived metrics (PEEP, PIP_PLATEAU, PIP, PIP_TIME, PEEP_TIME,
I_PHASE) to undefined (NaN); VTE and BPM are computed from the volume and
phase columns and are unaffected by the non-finite pressure mean. -/
theorem C4_nonfinite_mean (rows : List Row) (r0 : Row) (rest : List Row)
    (hrows : rows = r0 :: rest)
    (hmean : np_mean (rows.map Row.pressure) = none) :
    analyze_waveform rows =
      .ok { peep := none, pip_plateau := none, pip := none, pip_time := none,
            peep_time := none, i_phase := none,
            vte := some ((rows.map Row.volume).foldl max r0.volume -
                         (rows.map Row.volume).foldl min r0.volume),
            bpm := if (rows.map Row.phase).getLastD 0 = 0 then none
                   else some (60 / (rows.map Row.phase).getLastD 0) } := by
  subst hrows
  simp only [analyze_waveform, hmean]

/-- Claim C4 witness: the amended statement applied to a concrete three-row
waveform with only non-finite pressure samples, with both hypotheses
discharged by evaluation. -/
theorem C4_nonfinite_mean_witness :
    analyze_waveform [⟨0, none, 0⟩, ⟨1, none, 3⟩, ⟨2, none, 1⟩] =
      .ok { peep := none, pip_plateau := none, pip := none, pip_time := none,
            peep_time := none, i_phase := none,
            vte := some 3, bpm := some 30 } := by
  have h := C4_nonfinite_mean [⟨0, none, 0⟩, ⟨1, none, 3⟩, ⟨2, none, 1⟩]
    ⟨0, none, 0⟩ [⟨1, none, 3⟩, ⟨2, none, 1⟩] rfl (by norm_num [np_mean])
  rw [h]
  norm_num [List.getLastD]

/-- Claim C5 counterexample: with exactly one waveform in the archive, the
analysis step leaves every derived metric unchanged (the guard requires more
than one archived waveform), although analyzing the single archived waveform
would produce different metrics. -/
theorem C5_counterexample :
    analyze_last_waveform [waveform_c5] initial_derived =
      .ok initial_derived ∧
    analyze_waveform waveform_c5 = .ok derived_c5 ∧
    derived_c5 ≠ initial_derived := by
  refine ⟨?_, ?_, ?_⟩
  · norm_num [analyze_last_waveform]
  · norm_num [analyze_waveform, waveform_c5, derived_c5, np_mean,
      np_percentile, sort_asc, insert_asc, first_idx, last_idx,
      List.getLastD, List.filterMap_cons, List.filter,
      int_ceil_as_neg_floor]
  · simp [derived_c5, initial_derived]

/-- Claim C5 (amended): the waveform analyzer runs on the most recently
archived waveform exactly when the archive holds more than one waveform; for
an archive with at most one entry (in particular a single archived breath)
the derived metrics are left unchanged. -/
theorem C5_analyzer_guard (archive : List (List Row)) (current : Derived)
    (w : List Row) :
    (1 < archive.length → archive.getLast? = some w →
      analyze_last_waveform archive current = analyze_waveform w) ∧
    (archive.length ≤ 1 →
      analyze_last_waveform archive current = .ok current) := by
  constructor
  · intro h1 h2
    simp [analyze_last_waveform, if_pos h1, h2]
  · intro h1
    simp [analyze_last_waveform, if_neg (not_lt.mpr h1)]

/-- Claim C5 witness: with two archived waveforms the analysis step runs on
the most recent one. -/
theorem C5_analyzer_guard_witness :
    analyze_last_waveform [[⟨0, some 0, 0⟩], waveform_c5] initial_derived =
      analyze_waveform waveform_c5 :=
  (C5_analyzer_guard [[⟨0, some 0, 0⟩], waveform_c5] initial_derived
    waveform_c5).1 (by norm_num) (by simp)

/-- Claim C6 counterexample: when the cached settings already hold the
standby values inlet = 0, outlet = 1, set_valves_standby performs no
hardware write at all: both writes are suppressed by the equal-value check
of _set_HAL, through which set_valves_standby is routed. -/
theorem C6_counterexample :
    (set_valves_standby
      { setpoint_in := 0, setpoint_ex := 1,
        current_setting_in := 0, current_setting_ex := 1 }).wrote_in
      = false ∧
    (set_valves_standby
      { setpoint_in := 0, setpoint_ex := 1,
        current_setting_in := 0, current_setting_ex := 1 }).wrote_ex
      = false := by
  constructor <;>
    norm_num [set_valves_standby, set_HAL, clamp_valve_in, py_int]

/-- Claim C6 (amended): set_valves_standby requests inlet = 0, outlet = 1
through the ordinary change-suppressed _set_HAL path: starting from any
state whose cache agrees with the hardware setpoints, the resulting
hardware state is inlet = 0, outlet = 1, and each write is performed
exactly when the cached value differs from the standby value (so it is
suppressed when the cache already equals it). -/
theorem C6_standby (s : ValveState)
    (hin : s.setpoint_in = s.current_setting_in)
    (hex : s.setpoint_ex = s.current_setting_ex) :
    (set_valves_standby s).state.setpoint_in = 0 ∧
    (set_valves_standby s).state.setpoint_ex = 1 ∧
    (set_valves_standby s).state.current_setting_in = 0 ∧
    (set_valves_standby s).state.current_setting_ex = 1 ∧
    ((set_valves_standby s).wrote_in = false ↔ s.current_setting_in = 0) ∧
    ((set_valves_standby s).wrote_ex = false ↔ s.current_setting_ex = 1) := by
  have hz : ((clamp_valve_in 0 : ℤ) : ℚ) = 0 := by
    norm_num [clamp_valve_in, py_int]
  by_cases h1 : s.current_setting_in = (0:ℚ) <;>
    by_cases h2 : s.current_setting_ex = (1:ℚ) <;>
      simp_all [set_valves_standby, set_HAL, hz]

/-- Claim C6 witness: from a state with both valves cached at 5, standby
drives the hardware to inlet = 0, outlet = 1 and both writes happen. -/
theorem C6_standby_witness :
    (set_valves_standby
      { setpoint_in := 5, setpoint_ex := 5,
        current_setting_in := 5, current_setting_ex := 5 }).state.setpoint_in
      = 0 ∧
    (set_valves_standby
      { setpoint_in := 5, setpoint_ex := 5,
        current_setting_in := 5, current_setting_ex := 5 }).state.setpoint_ex
      = 1 := by
  have h := C6_standby
    { setpoint_in := 5, setpoint_ex := 5,
      current_setting_in := 5, current_setting_ex := 5 } rfl rfl
  exact ⟨h.1, h.2.1⟩

/-- Claim C7 counterexample: an inlet command of 2.7 is forwarded to the
hardware as 2 (Python int() truncates toward zero), not as the rounded
value 3. -/
theorem C7_counterexample :
    (set_HAL
      { setpoint_in := 50, setpoint_ex := 50,
        current_setting_in := 50, current_setting_ex := 50 }
      (27/10) 0).state.setpoint_in = 2 ∧
    ((2:ℚ) ≠ ((round ((27:ℚ)/10) : ℤ) : ℚ)) := by
  constructor
  · norm_num [set_HAL, clamp_valve_in, py_int]
  · rw [round_eq]
    norm_num

/-- Claim C7 (amended): the inlet command is truncated toward zero to an
integer and clamped to [0, 100] before being forwarded, the outlet command
is forwarded unmodified, and a write of either valve is suppressed exactly
when the new value equals the currently cached hardware setting for that
valve. -/
theorem C7_valve_mapper (s : ValveState) (valve_open_in valve_open_out : ℚ) :
    ((set_HAL s valve_open_in valve_open_out).wrote_in = false ↔
      s.current_setting_in = ((clamp_valve_in valve_open_in : ℤ) : ℚ)) ∧
    (set_HAL s valve_open_in valve_open_out).state.setpoint_in =
      (if s.current_setting_in = ((clamp_valve_in valve_open_in : ℤ) : ℚ)
        then s.setpoint_in else ((clamp_valve_in valve_open_in : ℤ) : ℚ)) ∧
    (0 ≤ clamp_valve_in valve_open_in ∧
      clamp_valve_in valve_open_in ≤ 100) ∧
    ((set_HAL s valve_open_in valve_open_out).wrote_ex = false ↔
      s.current_setting_ex = valve_open_out) ∧
    (set_HAL s valve_open_in valve_open_out).state.setpoint_ex =
      (if s.current_setting_ex = valve_open_out
        then s.setpoint_ex else valve_open_out) := by
  refine ⟨?_, ?_, ⟨le_max_right _ _, ?_⟩, ?_, ?_⟩ <;>
    first
    | exact max_le (le_trans (min_le_left _ _) (by norm_num)) (by norm_num)
    | by_cases h1 : s.current_setting_in
          = ((clamp_valve_in valve_open_in : ℤ) : ℚ) <;>
        by_cases h2 : s.current_setting_ex = valve_open_out <;>
          simp_all [set_HAL]

/-- Helper for Claim C8: one set_control call affects a valid name read back
through get_control exactly when the call names it and carries a non-None
value. -/
theorem get_control_set_control (st : ExchangeState) (c : ControlSetting)
    (n : ValueName) (hn : valid_set_name n = true) :
    get_control (set_control st c).shared n =
      match if c.name = n then c.value else none with
      | some v => some v
      | none => get_control st.shared n := by
  rcases c with ⟨cn, cv, cmin, cmax⟩
  cases cv <;> cases cn <;> cases cmax <;> cases n <;>
    simp_all [set_control, get_control, valid_set_name]

/-- Claim C8: for every sequence of set_control calls over the six valid
setting names, get_control after a resync (controls_from_COPY) returns the
value of the last set_control with a non-None value for that name, or the
prior stored value if no such call occurred; and a set_control whose name
is not one of the six valid names leaves the state entirely unchanged. -/
theorem C8_set_get_control (st : ExchangeState) (ops : List ControlSetting)
    (n : ValueName) :
    (valid_set_name n = true →
      get_control (controls_from_COPY (apply_settings st ops)).shared n =
        match last_set_value n ops with
        | some v => some v
        | none => get_control st.shared n) ∧
    (∀ c : ControlSetting, valid_set_name c.name = false →
      set_control st c = st) := by
  constructor
  · intro hn
    show get_control (apply_settings st ops).shared n =
      match last_set_value n ops with
      | some v => some v
      | none => get_control st.shared n
    induction ops generalizing st with
    | nil => simp [apply_settings, last_set_value]
    | cons c rest ih =>
      have h1 : apply_settings st (c :: rest) =
          apply_settings (set_control st c) rest := rfl
      rw [h1, ih (set_control st c)]
      cases hls : last_set_value n rest with
      | some v => simp [last_set_value, hls]
      | none =>
        simp only [last_set_value, hls,
          get_control_set_control st c n hn]
  · intro c hc
    rcases c with ⟨cn, cv, cmin, cmax⟩
    cases cv <;> cases cn <;>
      simp_all [set_control, valid_set_name]

/-- Claim C8 witness: setting PIP to 25 and then to 30, a resynced
get_control for PIP returns 30. -/
theorem C8_set_get_control_witness :
    get_control (controls_from_COPY (apply_settings
      ⟨⟨22, 1, 5, 1, 10, 1⟩, ⟨0, 0, 0, 0, 0, 0, 0, 0, 0⟩, 50⟩
      [⟨ValueName.PIP, some 25, none, none⟩,
       ⟨ValueName.PIP, some 30, none, none⟩])).shared ValueName.PIP
      = some 30 := by
  have h := (C8_set_get_control
    ⟨⟨22, 1, 5, 1, 10, 1⟩, ⟨0, 0, 0, 0, 0, 0, 0, 0, 0⟩, 50⟩
    [⟨ValueName.PIP, some 25, none, none⟩,
     ⟨ValueName.PIP, some 30, none, none⟩] ValueName.PIP).1 rfl
  simpa [last_set_value] using h

/-- Helper for Claim C9: a deque append with maxlen never leaves more than
maxlen entries. -/
theorem archive_append_length (ringbuffer_size : ℕ) (archive : List α)
    (w : α) :
    (archive_append ringbuffer_size archive w).length ≤ ringbuffer_size := by
  unfold archive_append
  by_cases h : ringbuffer_size < (archive ++ [w]).length
  · simp only [if_pos h, List.length_drop]
    omega
  · simp only [if_neg h]
    omega

/-- Claim C9: every ring-buffer state reachable through archiving and
draining holds at most ringbuffer_size waveforms; and whenever a
get_past_waveforms call succeeds, the replacement buffer holds exactly one
entry, namely the most recently archived waveform. -/
theorem C9_ring_buffer (ringbuffer_size : ℕ) (archive : List α)
    (h : ArchiveReachable ringbuffer_size archive) :
    archive.length ≤ ringbuffer_size ∧
    ∀ ret buf, get_past_waveforms archive = some (ret, buf) →
      buf.length = 1 ∧ ∃ w, archive.getLast? = some w ∧ buf = [w] := by
  constructor
  · induction h with
    | init => simp
    | append a w ha ih => exact archive_append_length ringbuffer_size a w
    | drain a ret buf ha hg ih =>
      unfold get_past_waveforms at hg
      cases hla : a.getLast? with
      | none => rw [hla] at hg; cases hg
      | some w =>
        rw [hla] at hg
        have hbuf : buf = [w] := by
          cases hg
          rfl
        have hne : a ≠ [] := by
          intro he
          rw [he] at hla
          cases hla
        have h1 : 1 ≤ a.length := by
          cases a with
          | nil => exact absurd rfl hne
          | cons x xs => simp
        rw [hbuf]
        simpa using le_trans h1 ih
  · intro ret buf hg
    unfold get_past_waveforms at hg
    cases hla : archive.getLast? with
    | none => rw [hla] at hg; cases hg
    | some w =>
      rw [hla] at hg
      have hbuf : buf = [w] := by
        cases hg
        rfl
      exact ⟨by rw [hbuf]; rfl, w, rfl, hbuf⟩

/-- Claim C9 witness: the buffer [5] is reachable with ring-buffer size 2 by
archiving one waveform; it respects the bound, and draining it leaves
exactly the most recent entry. -/
theorem C9_ring_buffer_witness :
    ([5] : List ℕ).length ≤ 2 ∧
    ∃ w, ([5] : List ℕ).getLast? = some w ∧ ([5] : List ℕ) = [w] := by
  have hr : ArchiveReachable 2 ([5] : List ℕ) := by
    have h0 : ArchiveReachable 2 (archive_append 2 ([] : List ℕ) 5) :=
      ArchiveReachable.append [] 5 ArchiveReachable.init
    simpa [archive_append] using h0
  have h := C9_ring_buffer 2 ([5] : List ℕ) hr
  exact ⟨h.1, ((h.2 [5] [5]) (by simp [get_past_waveforms])).2⟩

/-- Claim C10: calling get_past_waveforms on an empty archive raises (the
source indexes archive[-1] on an empty list, an IndexError modeled by none)
instead of returning an empty list; the drain succeeds exactly when at
least one waveform has been archived. -/
theorem C10_empty_archive_drain :
    get_past_waveforms ([] : List (List Row)) = none ∧
    ∀ archive : List (List Row),
      (get_past_waveforms archive).isSome ↔ archive ≠ [] := by
  constructor
  · rfl
  · intro archive
    unfold get_past_waveforms
    cases hla : archive.getLast? with
    | none =>
      simp only [Option.isSome_none, Bool.false_eq_true, false_iff,
        ne_eq, not_not]
      exact List.getLast?_eq_none_iff.mp hla
    | some w =>
      simp only [Option.isSome_some, true_iff, ne_eq]
      intro he
      rw [he] at hla
      cases hla

end Vent
